import Mathlib

/-
Verification of the AEGIS v3 trading core against its specification.

Each definition below is a shallow embedding of one Python function of the
repository (module and function named in its doc comment).  External effects
(database queries, broker calls, LLM calls, stream sends) are modelled as
explicit oracle parameters: an Except value is a call that either returned or
raised, a Bool send flag is the success of one websocket frame send.  Machine
floats in the score combination are modelled exactly: a nonnegative IEEE-754
double is represented by its numerator over the fixed denominator 2^54, and
every arithmetic step rounds to 53 significand bits with ties to even, exactly
as the CPython evaluation does on the bounded inputs involved.
-/

set_option autoImplicit false

namespace Aegis

/-! ## Exact double-precision model for the score combination -/

/-- Round-half-to-even of the value n / 2^k, as an integer. -/
def rhe (n k : Nat) : Nat :=
  let q := n / 2 ^ k
  let r := n % 2 ^ k
  let h := 2 ^ (k - 1)
  if h < r then q + 1
  else if r < h then q
  else if q % 2 = 0 then q else q + 1

/-- Number of significand bits to drop so that 53 bits remain, written as a
comparison chain against the powers 2^53 .. 2^61 for fast kernel evaluation.
Every numerator appearing in this development is below 2^61 (score at most
100 times a 54-bit significand), so the chain is exact on the whole domain
used. -/
def dropOf (n : Nat) : Nat :=
  if n < 9007199254740992 then 0
  else if n < 18014398509481984 then 1
  else if n < 36028797018963968 then 2
  else if n < 72057594037927936 then 3
  else if n < 144115188075855872 then 4
  else if n < 288230376151711744 then 5
  else if n < 576460752303423488 then 6
  else if n < 1152921504606846976 then 7
  else if n < 2305843009213693952 then 8
  else 9

/-- Round the nonnegative value n / 2^54 to the nearest IEEE-754 double
(53 significand bits, ties to even), returned as its numerator over the same
fixed denominator 2^54.  Values in this development stay far below the
overflow range and above the subnormal range, where this is the full rule. -/
def roundDbl54 (n : Nat) : Nat :=
  let drop := dropOf n
  rhe n drop * 2 ^ drop

/-- Significand of the double nearest to 0.57, over denominator 2^53. -/
def m57 : Nat := 5134103575202365

/-- Significand of the double nearest to 0.43, over denominator 2^54. -/
def m43 : Nat := 7746191359077253

/-! ## BrainAnalyzer (src/brain/analyzer.py) -/

/-- BrainAnalyzer._calculate_final_score: the Python body is
int((quant_score * 0.57) + (ai_score * 0.43)).  Both products and the sum are
double-precision operations (each rounds to nearest, ties to even) and int()
truncates the nonnegative result toward zero, which is the floor.  All values
are carried over the common denominator 2^54. -/
def calculateFinalScore (quantScore aiScore : Nat) : Nat :=
  let p1 := roundDbl54 (quantScore * (2 * m57))
  let p2 := roundDbl54 (aiScore * m43)
  let s := roundDbl54 (p1 + p2)
  s / 2 ^ 54

/-- Action recommendation vocabulary of the analyzer and commander. -/
inductive Recommendation
  | BUY
  | SELL
  | HOLD
deriving DecidableEq, Repr

/-- BrainAnalyzer._make_recommendation: HOLD on score gap at least 30,
otherwise BUY at final 75 and above, SELL at final 40 and below, else HOLD. -/
def makeRecommendation (finalScore quantScore aiScore : Nat) : Recommendation :=
  let scoreDiff := ((aiScore : Int) - (quantScore : Int)).natAbs
  if 30 ≤ scoreDiff then Recommendation.HOLD
  else if 75 ≤ finalScore then Recommendation.BUY
  else if finalScore ≤ 40 then Recommendation.SELL
  else Recommendation.HOLD

/-- Spec-side definition, modelled from the words of the specification:
final = round(quant*0.57 + ai*0.43) with exact rational arithmetic and the
usual half-up tie.  Written only to be compared with calculateFinalScore. -/
def specRoundCombine (quantScore aiScore : Nat) : Nat :=
  (57 * quantScore + 43 * aiScore + 50) / 100

/-- Exact rational floor of quant*0.57 + ai*0.43, the value the source would
compute with exact decimal arithmetic before truncation. -/
def floorCombine (quantScore aiScore : Nat) : Nat :=
  (57 * quantScore + 43 * aiScore) / 100

/-- Exhaustive check over the whole 101 by 101 score grid that the analyzer
final score is the rational floor of the weighted sum, except at the two pairs
where double rounding lands just below an exact integer, where it is one
less. -/
def floorGridChecked : Bool :=
  (List.range 101).all (fun q => (List.range 101).all (fun a =>
    decide (calculateFinalScore q a =
      (if (q = 57 ∧ a = 57) ∨ (q = 100 ∧ a = 0) then floorCombine q a - 1
       else floorCombine q a))))

/-- Row of the daily_picks table as the analyzer reads it: the ai_score
column may be NULL. -/
structure DailyPickRow where
  aiScore : Option Nat

/-- BrainAnalyzer._get_ai_score_from_daily_picks: the query outcome is an
oracle; error is a raised exception, ok none is no row for today.  The source
tests the row and its ai_score for Python truthiness, so a NULL or zero
ai_score also falls back to the default 50. -/
def getAiScoreFromDailyPicks (lookup : Except Unit (Option DailyPickRow)) : Nat :=
  match lookup with
  | Except.error _ => 50
  | Except.ok none => 50
  | Except.ok (some row) =>
    match row.aiScore with
    | none => 50
    | some v => if v = 0 then 50 else v

/-- AI-score selection step of BrainAnalyzer.analyze_candidate: the explicit
ai_score argument is used when it is not None, otherwise the daily-picks
lookup supplies it. -/
def analyzeCandidateAiScore (aiScoreParam : Option Nat)
    (lookup : Except Unit (Option DailyPickRow)) : Nat :=
  match aiScoreParam with
  | some v => v
  | none => getAiScoreFromDailyPicks lookup

/-- Parsed fields of the fast-LLM (DeepSeek V3) intraday analysis. -/
structure V3Analysis where
  aiScore : Nat
  confidence : Nat
  recommendation : Recommendation
deriving DecidableEq, Repr

/-- BrainAnalyzer.get_deepseek_v3_analysis with the LLM call modelled as an
oracle: error is any exception raised by the call, ok carries the parsed
response.  On failure the source returns ai_score 50, confidence 0 and
recommendation HOLD. -/
def getDeepseekV3Analysis (call : Except String V3Analysis) : V3Analysis :=
  match call with
  | Except.ok parsed => parsed
  | Except.error _ =>
    { aiScore := 50, confidence := 0, recommendation := Recommendation.HOLD }

/-! ## BrainCommander (src/brain/commander.py) -/

/-- Market regime tag passed to the commander gate. -/
inductive MarketStatus
  | NORMAL
  | RISK_ON
  | IRON_SHIELD
deriving DecidableEq, Repr

/-- Fields of the analysis_result dict that BrainCommander.decide consumes
(the remaining fields only feed the prompt text). -/
structure AnalysisResult where
  quantScore : Nat
  aiScore : Nat
  finalScore : Nat
  recommendation : Recommendation
deriving DecidableEq, Repr

/-- Parsed JSON decision returned by the commander LLM. -/
structure CommanderDecision where
  decision : Recommendation
  confidence : Nat
  riskLevel : String
  vetoReason : Option String
deriving DecidableEq, Repr

/-- Outcome of the single LLM round trip inside BrainCommander.decide:
apiError is an exception from the request, parseFailure is a response from
which _parse_response could not extract valid JSON, parsed carries the
extracted decision dict. -/
inductive LlmOutcome
  | apiError (msg : String)
  | parseFailure
  | parsed (d : CommanderDecision)
deriving DecidableEq, Repr

/-- Result of one BrainCommander.decide call together with whether the LLM
request was issued on that control path. -/
structure CommanderResult where
  decision : CommanderDecision
  llmCalled : Bool
deriving DecidableEq, Repr

/-- BrainCommander.decide: the body builds the prompt and issues the LLM
request unconditionally (there is no branch before the request, so llmCalled
is true on every path; the analysis fields and market status only shape the
prompt string).  The response is the parsed JSON; an exception from the
request yields the HOLD default with veto reason API failure; a response with
no parsable JSON yields the HOLD default with veto reason Parse failure. -/
def commanderDecide (analysis : AnalysisResult) (marketStatus : MarketStatus)
    (outcome : LlmOutcome) : CommanderResult :=
  { llmCalled := true
    decision :=
      match outcome with
      | LlmOutcome.apiError msg =>
        { decision := Recommendation.HOLD, confidence := 0, riskLevel := "HIGH"
          vetoReason := some ("API failure: " ++ msg) }
      | LlmOutcome.parseFailure =>
        { decision := Recommendation.HOLD, confidence := 0, riskLevel := "HIGH"
          vetoReason := some "Parse failure" }
      | LlmOutcome.parsed d => d }

/-- Score gap between the AI and quant scores of an analysis result, the
quantity the uncertainty auto-reject of the specification is stated on. -/
def scoreGap (analysis : AnalysisResult) : Nat :=
  ((analysis.aiScore : Int) - (analysis.quantScore : Int)).natAbs

/-! ## PortfolioManager (src/brain/portfolio_manager.py) -/

/-- Portfolio row as _judge_stock reads it: profit_rate and current_price are
broker-synced columns, max_price_reached may be NULL, partial_sold_1 is the
stage-1 partial-exit flag. -/
structure PortfolioItem where
  avgPrice : ℚ
  currentPrice : ℚ
  profitRate : ℚ
  maxPriceReached : Option ℚ
  partialSold1 : Bool
deriving DecidableEq

/-- Exit reason vocabulary of _judge_stock. -/
inductive SellReason
  | stopLoss
  | partialSell1
  | partialSell2
  | trailingStop
  | strongTrailing
deriving DecidableEq, Repr

/-- Sell decision returned by _judge_stock: the fraction is 1/2 for the
stage-1 partial sell and 1 for every full sell. -/
structure SellDecision where
  reasonType : SellReason
  sellFraction : ℚ
deriving DecidableEq

/-- Local highest_price of _judge_stock: max_price_reached with a Python
truthiness fallback to avg_price (NULL and 0 both fall back).  The source
records a new high on the row but does not rebind this local afterwards, so
the trailing computations below use this value as read, exactly as the code
does. -/
def highestPriceOf (item : PortfolioItem) : ℚ :=
  match item.maxPriceReached with
  | some m => if m = 0 then item.avgPrice else m
  | none => item.avgPrice

/-- The max_profit_rate local of _judge_stock, computed from the stale
highest_price local. -/
def maxProfitRateOf (item : PortfolioItem) : ℚ :=
  (highestPriceOf item - item.avgPrice) / item.avgPrice * 100

/-- The drop_from_high local of _judge_stock. -/
def dropFromHighOf (item : PortfolioItem) : ℚ :=
  (highestPriceOf item - item.currentPrice) / highestPriceOf item * 100

/-- Final take-profit condition of _judge_stock (condition 4): full sell at
profit_rate 5.5 and above, otherwise no sale. -/
def takeProfitJudge (item : PortfolioItem) : Option SellDecision :=
  if 11 / 2 ≤ item.profitRate then some ⟨SellReason.partialSell2, 1⟩ else none

/-- PortfolioManager._judge_stock, conditions in source order: full stop-loss
at profit_rate up to -3; half stage-1 partial sell on the window [3.5, 5.5)
when the stage-1 flag is not set; trailing stops gated on the max profit
rate; full take-profit at 5.5 and above. -/
def judgeStock (item : PortfolioItem) : Option SellDecision :=
  if item.profitRate ≤ -3 then some ⟨SellReason.stopLoss, 1⟩
  else if 7 / 2 ≤ item.profitRate ∧ item.profitRate < 11 / 2 ∧ item.partialSold1 = false then
    some ⟨SellReason.partialSell1, 1 / 2⟩
  else if 5 ≤ maxProfitRateOf item then
    if 8 ≤ maxProfitRateOf item then
      if 3 / 2 ≤ dropFromHighOf item then some ⟨SellReason.strongTrailing, 1⟩
      else takeProfitJudge item
    else
      if 2 ≤ dropFromHighOf item then some ⟨SellReason.trailingStop, 1⟩
      else takeProfitJudge item
  else takeProfitJudge item

/-! ## KoreanMarketTrapDetector weight feedback (src/brain/korean_market_traps.py) -/

/-- Feedback outcome passed to record_feedback for a known trap type. -/
inductive TrapFeedback
  | CORRECT
  | WRONG
deriving DecidableEq, Repr

/-- Weight update step of KoreanMarketTrapDetector.record_feedback: plus 0.01
capped at 0.99 on CORRECT, minus 0.02 floored at 0.30 on WRONG. -/
def updateWeight (result : TrapFeedback) (w : ℚ) : ℚ :=
  match result with
  | TrapFeedback.CORRECT => min (99 / 100) (w + 1 / 100)
  | TrapFeedback.WRONG => max (30 / 100) (w - 2 / 100)

/-- Sequential application of record_feedback weight updates, oldest first. -/
def applyFeedback (seq : List TrapFeedback) (w : ℚ) : ℚ :=
  seq.foldl (fun acc f => updateWeight f acc) w

/-- Number of CORRECT entries in a feedback sequence. -/
def countCorrect (seq : List TrapFeedback) : Nat :=
  (seq.filter (fun f => f = TrapFeedback.CORRECT)).length

/-- Number of WRONG entries in a feedback sequence. -/
def countWrong (seq : List TrapFeedback) : Nat :=
  (seq.filter (fun f => f = TrapFeedback.WRONG)).length

/-- Net drift of a feedback sequence: 0.01 per CORRECT minus 0.02 per
WRONG. -/
def feedbackDrift (seq : List TrapFeedback) : ℚ :=
  (countCorrect seq : ℚ) * (1 / 100) - (countWrong seq : ℚ) * (2 / 100)

/-- Spec-side definition, modelled from the words of the specification:
clip(w0 + 0.01*n - 0.02*m, 0.30, 0.99).  Written only to be compared with
applyFeedback. -/
def specClipWeight (w0 : ℚ) (n m : Nat) : ℚ :=
  max (30 / 100) (min (99 / 100) (w0 + (n : ℚ) * (1 / 100) - (m : ℚ) * (2 / 100)))

/-! ## SafetyChecker (src/brain/safety_checker.py) -/

/-- Result dict of one individual safety check. -/
structure CheckResult where
  passed : Bool
  detail : String
deriving DecidableEq, Repr

/-- Balance summary fields used by the account-loss and position-weight
checks. -/
structure AccountInfo where
  totalAsset : ℚ
  deposit : ℚ
deriving DecidableEq

/-- Local wall-clock instant for the Friday-cutoff check: weekday 0 is Monday
(Python convention) and the time of day is in minutes. -/
structure LocalClock where
  weekday : Nat
  minutesOfDay : Nat
deriving DecidableEq, Repr

/-- SafetyChecker._check_holdings_count: the DB count is an oracle whose
error case is a raised query; the except branch of the source returns passed
false, so a technical error here fails closed. -/
def checkHoldingsCount (holdingsCount : Except String Nat) : CheckResult :=
  match holdingsCount with
  | Except.ok n => { passed := decide (n < 5), detail := "holdings count" }
  | Except.error e => { passed := false, detail := "Error: " ++ e }

/-- SafetyChecker._check_daily_trades: same shape as the holdings check, and
its except branch also returns passed false. -/
def checkDailyTrades (tradesCount : Except String Nat) : CheckResult :=
  match tradesCount with
  | Except.ok n => { passed := decide (n < 4), detail := "daily trades" }
  | Except.error e => { passed := false, detail := "Error: " ++ e }

/-- SafetyChecker._check_friday_cutoff: rejects on Friday (weekday 4) at or
after 14:30 local time. -/
def checkFridayCutoff (now : LocalClock) : CheckResult :=
  if now.weekday = 4 ∧ 14 * 60 + 30 ≤ now.minutesOfDay then
    { passed := false, detail := "friday cutoff" }
  else
    { passed := true, detail := "friday cutoff ok" }

/-- SafetyChecker._check_account_loss: the broker balance call is an oracle;
a raised call (error) and a falsy response (ok none) both pass, as the source
deliberately fails open here; otherwise the profit rate must stay above
-2 percent. -/
def checkAccountLoss (account : Except String (Option AccountInfo)) : CheckResult :=
  match account with
  | Except.error e => { passed := true, detail := "Error (pass-through): " ++ e }
  | Except.ok none => { passed := true, detail := "no account info (pass-through)" }
  | Except.ok (some info) =>
    let profitRate : ℚ :=
      if info.deposit = 0 then 0 else (info.totalAsset - info.deposit) / info.deposit * 100
    { passed := decide (-2 < profitRate), detail := "account loss" }

/-- SafetyChecker._check_position_weight: the broker balance call is an
oracle; a raised call and a falsy response both pass (fail open); a zero
total asset fails; otherwise the planned buy amount must be at most 10
percent of the total asset. -/
def checkPositionWeight (account : Except String (Option AccountInfo))
    (quantity price : Nat) : CheckResult :=
  match account with
  | Except.error e => { passed := true, detail := "Error (pass-through): " ++ e }
  | Except.ok none => { passed := true, detail := "no account info (pass-through)" }
  | Except.ok (some info) =>
    if info.totalAsset = 0 then { passed := false, detail := "zero total asset" }
    else
      let weightPct : ℚ := ((quantity : ℚ) * (price : ℚ)) / info.totalAsset * 100
      { passed := decide (weightPct ≤ 10), detail := "position weight" }

/-- Oracle bundle consumed by one check_buy_safety call. -/
structure SafetyInputs where
  holdingsCount : Except String Nat
  tradesCount : Except String Nat
  now : LocalClock
  accountForLoss : Except String (Option AccountInfo)
  accountForWeight : Except String (Option AccountInfo)

/-- Combined result of SafetyChecker.check_buy_safety. -/
structure SafetyResult where
  approved : Bool
  reason : String
  checks : List (String × CheckResult)

/-- SafetyChecker.check_buy_safety: wrapperFault is an unexpected exception
escaping the body before the per-check results are assembled; the outer
except returns approved false with an empty checks dict.  Otherwise the five
checks run in order and approval is their conjunction. -/
def checkBuySafety (wrapperFault : Option String) (inputs : SafetyInputs)
    (quantity price : Nat) : SafetyResult :=
  match wrapperFault with
  | some e => { approved := false, reason := "Safety check failed: " ++ e, checks := [] }
  | none =>
    let c1 := checkHoldingsCount inputs.holdingsCount
    let c2 := checkDailyTrades inputs.tradesCount
    let c3 := checkFridayCutoff inputs.now
    let c4 := checkAccountLoss inputs.accountForLoss
    let c5 := checkPositionWeight inputs.accountForWeight quantity price
    let allPassed := c1.passed && c2.passed && c3.passed && c4.passed && c5.passed
    { approved := allPassed
      reason := if allPassed then "All safety checks passed" else "Failed checks"
      checks := [("holdings_count", c1), ("daily_trades", c2), ("friday_cutoff", c3),
                 ("account_loss", c4), ("position_weight", c5)] }

/-! ## KISWebSocketManager (src/fetchers/websocket_manager.py) -/

/-- Slot record of the subscription table; subscribedAt is an abstract
monotone timestamp. -/
structure WebSocketSlot where
  stockCode : String
  stockName : String
  trId : String
  priority : Nat
  subscribedAt : Nat
deriving DecidableEq, Repr

/-- Hard cap on the subscription table (KISWebSocketManager.MAX_SLOTS). -/
def MAX_SLOTS : Nat := 40

/-- Whether the table (a Python dict in insertion order, modelled as a list)
holds a slot for the given code. -/
def hasCode (code : String) (slots : List WebSocketSlot) : Bool :=
  slots.any (fun s => s.stockCode == code)

/-- Removal of the slot for a code, as the del statement does. -/
def removeSlot (code : String) (slots : List WebSocketSlot) : List WebSocketSlot :=
  slots.filter (fun s => s.stockCode ≠ code)

/-- Left-to-right minimum scan with the subscribed_at key, keeping the
earlier slot on ties, starting from a current best. -/
def oldestFrom (best : WebSocketSlot) : List WebSocketSlot → WebSocketSlot
  | [] => best
  | s :: rest => oldestFrom (if s.subscribedAt < best.subscribedAt then s else best) rest

/-- Python min with the subscribed_at key over a slot list: the first slot
carrying the minimal timestamp in iteration order, none on an empty list. -/
def oldestSlot : List WebSocketSlot → Option WebSocketSlot
  | [] => none
  | s :: rest => some (oldestFrom s rest)

/-- KISWebSocketManager.unsubscribe: absent codes return success untouched;
otherwise the unsubscribe frame is sent (sendOk is the oracle for that send)
and only a successful send reaches the del statement, since the except branch
returns False with the slot still in the table. -/
def unsubscribeOp (sendOk : Bool) (code : String) (slots : List WebSocketSlot) :
    Bool × List WebSocketSlot :=
  if hasCode code slots = false then (true, slots)
  else if sendOk then (true, removeSlot code slots)
  else (false, slots)

/-- KISWebSocketManager.evict_lowest_priority: if any priority-3 slot exists
the oldest of them is unsubscribed and True is returned regardless of the
required priority and of the unsubscribe outcome; otherwise, for required
priority at most 2, the oldest priority-2 slot is unsubscribed when one
exists; otherwise False with the table unchanged. -/
def evictLowestPriority (sendOk : Bool) (requiredPriority : Nat)
    (slots : List WebSocketSlot) : Bool × List WebSocketSlot :=
  match oldestSlot (slots.filter (fun s => s.priority = 3)) with
  | some victim => (true, (unsubscribeOp sendOk victim.stockCode slots).2)
  | none =>
    if requiredPriority ≤ 2 then
      match oldestSlot (slots.filter (fun s => s.priority = 2)) with
      | some victim => (true, (unsubscribeOp sendOk victim.stockCode slots).2)
      | none => (false, slots)
    else (false, slots)

/-- Send outcomes for the frames one subscribe call can issue: evictSendOk is
the unsubscribe frame of the eviction (when one happens), subSendOk the
subscribe frame itself. -/
structure SendOutcomes where
  evictSendOk : Bool
  subSendOk : Bool
deriving DecidableEq, Repr

/-- KISWebSocketManager.subscribe: an already-present code returns success
untouched; with the table at or above MAX_SLOTS an eviction is attempted and
its failure aborts with the table unchanged; then the subscribe frame is sent
and only a successful send records the new slot at the end of the dict. -/
def subscribeOp (sends : SendOutcomes) (code nm : String) (priority : Nat)
    (trId : String) (now : Nat) (slots : List WebSocketSlot) :
    Bool × List WebSocketSlot :=
  if hasCode code slots then (true, slots)
  else
    let afterEvict :=
      if MAX_SLOTS ≤ slots.length then evictLowestPriority sends.evictSendOk priority slots
      else (true, slots)
    if afterEvict.1 = false then (false, slots)
    else if sends.subSendOk then
      (true, afterEvict.2 ++ [⟨code, nm, trId, priority, now⟩])
    else (false, afterEvict.2)

/-- KISWebSocketManager.update_daily_picks: every current priority-2 slot is
unsubscribed, then up to 20 picks are subscribed at priority 2.  The send
oracles are per symbol. -/
def updateDailyPicksOp (unsubOk : String → Bool) (subSends : String → SendOutcomes)
    (picks : List (String × String)) (now : Nat) (slots : List WebSocketSlot) :
    List WebSocketSlot :=
  let p2codes := (slots.filter (fun s => s.priority = 2)).map (fun s => s.stockCode)
  let afterUnsub := p2codes.foldl (fun acc c => (unsubscribeOp (unsubOk c) c acc).2) slots
  (picks.take 20).foldl
    (fun acc pk => (subscribeOp (subSends pk.1) pk.1 pk.2 2 "H0STCNT0" now acc).2)
    afterUnsub

/-- KISWebSocketManager.sync_with_portfolio: held symbols missing from the
priority-1 slots are subscribed at priority 1, priority-1 slots no longer
held are unsubscribed. -/
def syncWithPortfolioOp (unsubOk : String → Bool) (subSends : String → SendOutcomes)
    (portfolio : List (String × String)) (now : Nat) (slots : List WebSocketSlot) :
    List WebSocketSlot :=
  let p1codes := (slots.filter (fun s => s.priority = 1)).map (fun s => s.stockCode)
  let toAdd := portfolio.filter (fun p => ¬ p1codes.contains p.1)
  let afterAdd := toAdd.foldl
    (fun acc p => (subscribeOp (subSends p.1) p.1 p.2 1 "H0STCNT0" now acc).2) slots
  let toRemove := p1codes.filter (fun c => ¬ (portfolio.map Prod.fst).contains c)
  toRemove.foldl (fun acc c => (unsubscribeOp (unsubOk c) c acc).2) afterAdd

/-- KISWebSocketManager.resubscribe_all: the table is cleared and every saved
slot is re-subscribed through subscribe with its saved priority and tr_id. -/
def resubscribeAllOp (subSends : String → SendOutcomes) (now : Nat)
    (slots : List WebSocketSlot) : List WebSocketSlot :=
  slots.foldl
    (fun acc s => (subscribeOp (subSends s.stockCode) s.stockCode s.stockName
      s.priority s.trId now acc).2)
    []

/-- Concrete full table: 40 priority-3 slots with distinct codes and
strictly increasing subscription times. -/
def fullP3Table : List WebSocketSlot :=
  (List.range 40).map
    (fun i => ⟨"P3-" ++ toString i, "Name" ++ toString i, "H0STCNT0", 3, i⟩)

/-! ## IntradayPipeline (src/pipeline/intraday_pipeline.py) -/

/-- Buy candidate as produced by the brain stage of the pipeline. -/
structure Candidate where
  stockCode : String
  stockName : String
  currentPrice : Nat
deriving DecidableEq, Repr

/-- Oracles of one pipeline invocation: the validator verdict and the
commander decision per candidate, the safety approval per candidate, and the
orderable cash reported by the portfolio service. -/
structure PipelineEnv where
  valApproved : String → Bool
  commanderDecision : String → Recommendation
  safetyApproved : String → Bool
  available : Nat

/-- Validation stage of IntradayPipeline.run (_validate_candidates): keeps
exactly the candidates the validator approved. -/
def validateCandidates (env : PipelineEnv) (candidates : List Candidate) :
    List Candidate :=
  candidates.filter (fun c => env.valApproved c.stockCode)

/-- Commander stage of IntradayPipeline.run (_commander_decide): keeps
exactly the candidates whose commander decision is BUY. -/
def commanderApprove (env : PipelineEnv) (candidates : List Candidate) :
    List Candidate :=
  candidates.filter (fun c => env.commanderDecision c.stockCode == Recommendation.BUY)

/-- Buy loop of IntradayPipeline._execute_orders: a candidate reaches the
order-submission point when the available cash is at least 1,000,000 and the
safety check approves.  The place_buy_order call at that point is commented
out in the source, so buy_orders itself always stays empty. -/
def executeOrdersBuyReach (env : PipelineEnv) (validated : List Candidate) :
    List Candidate :=
  validated.filter
    (fun c => decide (1000000 ≤ env.available) && env.safetyApproved c.stockCode)

/-- Structured result of one pipeline invocation (the fields of the result
dict that the claims are about). -/
structure PipelineResult where
  candidates : List Candidate
  validatedCandidates : List Candidate
  commanderDecisions : List Candidate
  buyReach : List Candidate
  buyOrders : List Candidate
deriving Repr

/-- IntradayPipeline.run stages 4 to 6: validation filters the candidates,
the commander stage filters the validated list, and execution is invoked on
validated_candidates: the source passes validated_candidates, not
commander_decisions, to _execute_orders, so the buy loop runs on every
validator-approved candidate regardless of the commander decision. -/
def pipelineRun (env : PipelineEnv) (candidates : List Candidate) : PipelineResult :=
  let validated := validateCandidates env candidates
  let approved := commanderApprove env validated
  { candidates := candidates
    validatedCandidates := validated
    commanderDecisions := approved
    buyReach := executeOrdersBuyReach env validated
    buyOrders := [] }

/-! ## FeedbackEngine, SonnetCommander and the circuit breaker
(src/feedback/feedback_engine.py, src/commander/sonnet_commander.py,
src/scheduler/dynamic_scheduler.py) -/

/-- Result classification vocabulary of the feedback engine. -/
inductive ResultCategory
  | SUCCESS
  | NEUTRAL
  | FAILURE
deriving DecidableEq, Repr

/-- FeedbackEngine._classify_result over exact rationals: success at +3 and
above (perfect at +5), failure at -1 and below (severe at -3, stop-loss at
-2), neutral in between. -/
def classifyResult (returnPct : ℚ) : ResultCategory × String :=
  if 3 ≤ returnPct then
    if 5 ≤ returnPct then (ResultCategory.SUCCESS, "PERFECT")
    else (ResultCategory.SUCCESS, "GOOD")
  else if returnPct ≤ -1 then
    if returnPct ≤ -3 then (ResultCategory.FAILURE, "SEVERE_LOSS")
    else if returnPct ≤ -2 then (ResultCategory.FAILURE, "STOP_LOSS")
    else (ResultCategory.FAILURE, "MINOR_LOSS")
  else (ResultCategory.NEUTRAL, "BREAKEVEN")

/-- Leading-failure streak over the ten most recent feedback rows (newest
first), as both engines compute it: count categories equal to FAILURE until
the first other category. -/
def leadingFailures (rows : List ResultCategory) : Nat :=
  ((rows.take 10).takeWhile (fun r => r = ResultCategory.FAILURE)).length

/-- Joint state of the trading process relevant to the circuit breaker: the
trade_feedback table (newest first), the acceptance threshold, and the two
independent breaker flags held by the feedback engine and the Sonnet
commander. -/
structure TradingSystemState where
  feedbackRows : List ResultCategory
  currentMinScore : Nat
  feBreakerActive : Bool
  scBreakerActive : Bool
deriving DecidableEq, Repr

/-- FeedbackEngine.check_consecutive_losses together with the triggered
adjustments: below three recent rows nothing happens; a streak of five or
more trips _trigger_circuit_breaker, which latches the engine flag and also
raises MIN_SCORE by 3 capped at 80; a streak of three or four only raises
MIN_SCORE. -/
def checkConsecutiveLosses (s : TradingSystemState) : TradingSystemState :=
  let rows := s.feedbackRows.take 10
  if rows.length < 3 then s
  else
    let n := (rows.takeWhile (fun r => r = ResultCategory.FAILURE)).length
    if 5 ≤ n then
      { s with feBreakerActive := true, currentMinScore := min 80 (s.currentMinScore + 3) }
    else if 3 ≤ n then
      { s with currentMinScore := min 80 (s.currentMinScore + 3) }
    else s

/-- State effect of FeedbackEngine.process_trade_exit: classify the exit,
prepend the feedback row (the table is read newest first), then run the
consecutive-loss check. -/
def processTradeExit (returnPct : ℚ) (s : TradingSystemState) : TradingSystemState :=
  let cat := (classifyResult returnPct).1
  checkConsecutiveLosses { s with feedbackRows := cat :: s.feedbackRows }

/-- SonnetCommander.process_feedback followed by _check_circuit_breaker: the
commander reads the shared trade_feedback table and latches its own breaker
flag once the leading-failure streak reaches five.  The blacklist side effect
is not modelled. -/
def scProcessFeedback (s : TradingSystemState) : TradingSystemState :=
  if 5 ≤ leadingFailures s.feedbackRows then { s with scBreakerActive := true } else s

/-- Breaker gate of SonnetCommander.monitor_and_decide: with the commander
breaker active the call returns no decisions, refusing every buy attempt;
otherwise the decisions are whatever the LLM returns (an oracle here). -/
def monitorAndDecide (llmDecisions : List String) (s : TradingSystemState) :
    List String :=
  if s.scBreakerActive then [] else llmDecisions

/-- DynamicScheduler._daily_settlement: the 16:00 job body is a TODO stub; it
performs no state change and in particular does not clear either breaker
flag. -/
def dailySettlement (s : TradingSystemState) : TradingSystemState := s

/-- Events that touch the circuit-breaker state. -/
inductive TradingEvent
  | engineExit (returnPct : ℚ)
  | commanderFeedback (returnPct : ℚ)
  | settlementTick

/-- Interpretation of one event on the joint state. -/
def applyTradingEvent (e : TradingEvent) (s : TradingSystemState) : TradingSystemState :=
  match e with
  | TradingEvent.engineExit r => processTradeExit r s
  | TradingEvent.commanderFeedback _ => scProcessFeedback s
  | TradingEvent.settlementTick => dailySettlement s

/-- Interpretation of an event sequence, oldest first. -/
def applyTradingEvents (events : List TradingEvent) (s : TradingSystemState) :
    TradingSystemState :=
  events.foldl (fun acc e => applyTradingEvent e acc) s

/-- One failing exit as seen by both engines: the engine processes the exit
and the commander then receives the feedback, at the given return. -/
def failingExitPair (returnPct : ℚ) : List TradingEvent :=
  [TradingEvent.engineExit returnPct, TradingEvent.commanderFeedback returnPct]

/-- Fresh process state: empty feedback table, default MIN_SCORE 70, both
breaker flags down. -/
def initialTradingState : TradingSystemState :=
  { feedbackRows := [], currentMinScore := 70
    feBreakerActive := false, scBreakerActive := false }

/-! ## Theorems -/

set_option maxRecDepth 100000 in
set_option maxHeartbeats 4000000 in
theorem floorGridChecked_true : floorGridChecked = true := by rfl

theorem calculateFinalScore_grid : ∀ q a : Nat, q ≤ 100 → a ≤ 100 →
    calculateFinalScore q a =
      (if (q = 57 ∧ a = 57) ∨ (q = 100 ∧ a = 0) then floorCombine q a - 1
       else floorCombine q a) := by
  have h := floorGridChecked_true
  intro q a hq ha
  unfold floorGridChecked at h
  rw [List.all_eq_true] at h
  have h2 := h q (List.mem_range.mpr (by omega))
  rw [List.all_eq_true] at h2
  exact of_decide_eq_true (h2 a (List.mem_range.mpr (by omega)))

/-- C3 counterexample: at quant 0 and ai 50 the exact value is 21.5; the
source truncates to 21 while round gives 22, so the final score is not
round(quant*0.57 + ai*0.43). -/
theorem finalScore_not_round_at_0_50 :
    calculateFinalScore 0 50 = 21 ∧ specRoundCombine 0 50 = 22 ∧
    calculateFinalScore 0 50 ≠ specRoundCombine 0 50 := by decide

/-- C3 amended: for all integer scores in [0,100] the final score is the
truncation (floor) of the double-precision weighted sum, which equals the
exact rational floor of quant*0.57 + ai*0.43 except at (57,57) and (100,0)
where double rounding lands one below; and a score gap of 30 or more always
produces the HOLD recommendation. -/
theorem finalScore_truncates_and_gap_holds :
    ∀ q a : Nat, q ≤ 100 → a ≤ 100 →
      (calculateFinalScore q a =
        (if (q = 57 ∧ a = 57) ∨ (q = 100 ∧ a = 0) then floorCombine q a - 1
         else floorCombine q a)) ∧
      (30 ≤ ((a : Int) - (q : Int)).natAbs →
        makeRecommendation (calculateFinalScore q a) q a = Recommendation.HOLD) := by
  intro q a hq ha
  refine ⟨calculateFinalScore_grid q a hq ha, fun hgap => ?_⟩
  unfold makeRecommendation
  simp [hgap]

/-- C3 witness: the amended statement at quant 80 and ai 30, where the gap
is 50 and the final score is the rational floor 58. -/
theorem finalScore_truncates_and_gap_holds_witness :
    calculateFinalScore 80 30 =
      (if ((80 : Nat) = 57 ∧ (30 : Nat) = 57) ∨ ((80 : Nat) = 100 ∧ (30 : Nat) = 0) then
        floorCombine 80 30 - 1 else floorCombine 80 30) ∧
    makeRecommendation (calculateFinalScore 80 30) 80 30 = Recommendation.HOLD := by
  have h := finalScore_truncates_and_gap_holds 80 30 (by decide) (by decide)
  exact ⟨h.1, h.2 (by decide)⟩

/-- C10: with no supplied AI score and a daily-picks lookup that raises or
finds no row, the analyzer substitutes the default AI score 50; and the fast
LLM analysis path returns ai score 50 with recommendation HOLD (confidence 0)
on any call failure. -/
theorem missing_ai_inputs_default_to_50 :
    ∀ (u : Unit) (e : String),
      analyzeCandidateAiScore none (Except.error u) = 50 ∧
      analyzeCandidateAiScore none (Except.ok none) = 50 ∧
      getDeepseekV3Analysis (Except.error e) =
        { aiScore := 50, confidence := 0, recommendation := Recommendation.HOLD } :=
  fun _ _ => ⟨rfl, rfl, rfl⟩

/-- C9: the safety checker fails closed on a technical error in the
holdings-count (and daily-trades) check, fails open on a technical error in
the account-loss and position-weight checks, and an unexpected error in the
overall wrapper returns approved false with an empty per-check dict. -/
theorem safety_checker_error_asymmetry :
    ∀ (e : String) (inputs : SafetyInputs) (quantity price : Nat),
      (checkHoldingsCount (Except.error e)).passed = false ∧
      (checkAccountLoss (Except.error e)).passed = true ∧
      (checkPositionWeight (Except.error e) quantity price).passed = true ∧
      (checkBuySafety (some e) inputs quantity price).approved = false ∧
      (checkBuySafety (some e) inputs quantity price).checks = [] :=
  fun _ _ _ _ => ⟨rfl, rfl, rfl, rfl, rfl⟩

/-- C1: run passes validated_candidates, not commander_decisions, to
_execute_orders; evaluated at one validator-approved candidate that the
commander vetoes (decision HOLD) with ample cash and a passing safety check,
the commander-approved list is empty yet the candidate reaches the
execute-stage buy-submission point. -/
theorem pipeline_executes_commander_vetoed_candidate :
    (pipelineRun
      { valApproved := fun _ => true
        commanderDecision := fun _ => Recommendation.HOLD
        safetyApproved := fun _ => true
        available := 5000000 }
      [{ stockCode := "005930", stockName := "SamsungElec", currentPrice := 70000 }]).commanderDecisions = [] ∧
    (pipelineRun
      { valApproved := fun _ => true
        commanderDecision := fun _ => Recommendation.HOLD
        safetyApproved := fun _ => true
        available := 5000000 }
      [{ stockCode := "005930", stockName := "SamsungElec", currentPrice := 70000 }]).buyReach =
      [{ stockCode := "005930", stockName := "SamsungElec", currentPrice := 70000 }] := by
  exact ⟨rfl, rfl⟩

/-- C2 counterexample: a candidate with final score 85 in the iron-shield
regime for which the LLM answers BUY: the commander gate issues the LLM call
and returns BUY, so it neither vetoes nor skips the LLM. -/
theorem commander_no_auto_veto_counterexample :
    (commanderDecide
      { quantScore := 75, aiScore := 85, finalScore := 85
        recommendation := Recommendation.BUY }
      MarketStatus.IRON_SHIELD
      (LlmOutcome.parsed
        { decision := Recommendation.BUY, confidence := 90, riskLevel := "LOW"
          vetoReason := none })).decision.decision = Recommendation.BUY ∧
    (commanderDecide
      { quantScore := 75, aiScore := 85, finalScore := 85
        recommendation := Recommendation.BUY }
      MarketStatus.IRON_SHIELD
      (LlmOutcome.parsed
        { decision := Recommendation.BUY, confidence := 90, riskLevel := "LOW"
          vetoReason := none })).llmCalled = true ∧
    (80 : Nat) < 85 := by
  exact ⟨rfl, rfl, by decide⟩

/-- C2 amended: the auto-reject criteria live only in the prompt text; even
when final exceeds 80 in the iron-shield regime or the score gap exceeds 30,
the commander issues the LLM call and its decision is exactly the parsed LLM
output, falling back to HOLD only on an API error or a parse failure. -/
theorem commander_always_calls_llm :
    ∀ (analysis : AnalysisResult) (ms : MarketStatus) (outcome : LlmOutcome),
      ((80 < analysis.finalScore ∧ ms = MarketStatus.IRON_SHIELD) ∨ 30 < scoreGap analysis) →
      (commanderDecide analysis ms outcome).llmCalled = true ∧
      (∀ d, outcome = LlmOutcome.parsed d →
        (commanderDecide analysis ms outcome).decision = d) ∧
      (∀ msg, outcome = LlmOutcome.apiError msg →
        (commanderDecide analysis ms outcome).decision.decision = Recommendation.HOLD) ∧
      (outcome = LlmOutcome.parseFailure →
        (commanderDecide analysis ms outcome).decision.decision = Recommendation.HOLD) := by
  intro analysis ms outcome _
  refine ⟨rfl, ?_, ?_, ?_⟩
  · intro d hd; subst hd; rfl
  · intro msg hm; subst hm; rfl
  · intro hp; subst hp; rfl

/-- C2 witness: the amended statement at the iron-shield candidate of the
counterexample input with a parse failure, yielding the HOLD fallback. -/
theorem commander_always_calls_llm_witness :
    (commanderDecide
      { quantScore := 75, aiScore := 85, finalScore := 85
        recommendation := Recommendation.BUY }
      MarketStatus.IRON_SHIELD LlmOutcome.parseFailure).llmCalled = true ∧
    (commanderDecide
      { quantScore := 75, aiScore := 85, finalScore := 85
        recommendation := Recommendation.BUY }
      MarketStatus.IRON_SHIELD LlmOutcome.parseFailure).decision.decision =
      Recommendation.HOLD := by
  have h := commander_always_calls_llm
    { quantScore := 75, aiScore := 85, finalScore := 85
      recommendation := Recommendation.BUY }
    MarketStatus.IRON_SHIELD LlmOutcome.parseFailure
    (Or.inl ⟨by decide, rfl⟩)
  exact ⟨h.1, h.2.2.2 rfl⟩


theorem updateWeight_mem_bounds (f : TrapFeedback) (w : ℚ)
    (h1 : 30 / 100 ≤ w) (h2 : w ≤ 99 / 100) :
    30 / 100 ≤ updateWeight f w ∧ updateWeight f w ≤ 99 / 100 := by
  cases f <;> unfold updateWeight <;> constructor
  · exact le_min (by norm_num) (by linarith)
  · exact min_le_left _ _
  · exact le_max_left _ _
  · exact max_le (by norm_num) (by linarith)

theorem applyFeedback_bounds (seq : List TrapFeedback) (w : ℚ)
    (h1 : 30 / 100 ≤ w) (h2 : w ≤ 99 / 100) :
    30 / 100 ≤ applyFeedback seq w ∧ applyFeedback seq w ≤ 99 / 100 := by
  induction seq generalizing w with
  | nil => exact ⟨h1, h2⟩
  | cons f rest ih =>
    have h := updateWeight_mem_bounds f w h1 h2
    simpa [applyFeedback] using ih (updateWeight f w) h.1 h.2

theorem feedbackDrift_append (a b : List TrapFeedback) :
    feedbackDrift (a ++ b) = feedbackDrift a + feedbackDrift b := by
  unfold feedbackDrift countCorrect countWrong
  rw [List.filter_append, List.filter_append, List.length_append, List.length_append]
  push_cast
  ring

theorem feedbackDrift_correct : feedbackDrift [TrapFeedback.CORRECT] = 1 / 100 := by
  have hc : countCorrect [TrapFeedback.CORRECT] = 1 := rfl
  have hw : countWrong [TrapFeedback.CORRECT] = 0 := rfl
  unfold feedbackDrift
  rw [hc, hw]
  norm_num

theorem feedbackDrift_wrong : feedbackDrift [TrapFeedback.WRONG] = -(2 / 100) := by
  have hc : countCorrect [TrapFeedback.WRONG] = 0 := rfl
  have hw : countWrong [TrapFeedback.WRONG] = 1 := rfl
  unfold feedbackDrift
  rw [hc, hw]
  norm_num

theorem applyFeedback_unclipped (seq : List TrapFeedback) (w : ℚ)
    (h : ∀ p q : List TrapFeedback, seq = p ++ q →
      30 / 100 ≤ w + feedbackDrift p ∧ w + feedbackDrift p ≤ 99 / 100) :
    applyFeedback seq w = w + feedbackDrift seq := by
  induction seq generalizing w with
  | nil =>
    have h0 : feedbackDrift [] = 0 := by
      have hc : countCorrect [] = 0 := rfl
      have hw : countWrong [] = 0 := rfl
      unfold feedbackDrift
      rw [hc, hw]
      norm_num
    simp [applyFeedback, h0]
  | cons f rest ih =>
    have h1 := h [f] rest rfl
    have hstep : updateWeight f w = w + feedbackDrift [f] := by
      cases f
      · rw [feedbackDrift_correct] at h1 ⊢
        unfold updateWeight
        exact min_eq_right h1.2
      · rw [feedbackDrift_wrong] at h1 ⊢
        unfold updateWeight
        rw [← sub_eq_add_neg]
        exact max_eq_right (by linarith [h1.1])
    have hrest : applyFeedback rest (updateWeight f w) =
        updateWeight f w + feedbackDrift rest := by
      refine ih (updateWeight f w) ?_
      intro p q hpq
      have := h ([f] ++ p) q (by simp [hpq])
      rw [feedbackDrift_append] at this
      rw [hstep]
      constructor <;> [linarith [this.1]; linarith [this.2]]
    have hcons : feedbackDrift (f :: rest) = feedbackDrift [f] + feedbackDrift rest := by
      have := feedbackDrift_append [f] rest
      simpa using this
    calc applyFeedback (f :: rest) w = applyFeedback rest (updateWeight f w) := rfl
    _ = updateWeight f w + feedbackDrift rest := hrest
    _ = w + feedbackDrift (f :: rest) := by rw [hstep, hcons]; ring

/-- C7 counterexample: starting from weight 0.99, one CORRECT update clips at
the cap and a following WRONG update lands at 0.97, while the clip formula
with n = m = 1 gives 0.98; the interleaving-free formula is therefore not the
reached weight. -/
theorem trap_weight_clip_formula_counterexample :
    applyFeedback [TrapFeedback.CORRECT, TrapFeedback.WRONG] (99 / 100) = 97 / 100 ∧
    specClipWeight (99 / 100) 1 1 = 98 / 100 ∧
    (97 / 100 : ℚ) ≠ 98 / 100 := by
  refine ⟨?_, ?_, by norm_num⟩
  · show updateWeight TrapFeedback.WRONG
      (updateWeight TrapFeedback.CORRECT (99 / 100)) = 97 / 100
    unfold updateWeight
    rw [min_eq_left (by norm_num)]
    rw [max_eq_right (by norm_num)]
    norm_num
  · unfold specClipWeight
    rw [min_eq_right (by push_cast; norm_num), max_eq_right (by push_cast; norm_num)]
    push_cast
    norm_num

/-- C7 amended: every weight stays inside [0.30, 0.99] under every update
sequence starting inside the bounds, and the reached weight equals the clip
formula clip(w0 + 0.01*n - 0.02*m) whenever no prefix of the sequence drives
the unclipped value outside the bounds; with mid-sequence clipping the
reached weight can differ from the formula. -/
theorem trap_weight_bounds_and_formula :
    ∀ (seq : List TrapFeedback) (w0 : ℚ),
      (30 / 100 ≤ w0 → w0 ≤ 99 / 100 →
        30 / 100 ≤ applyFeedback seq w0 ∧ applyFeedback seq w0 ≤ 99 / 100) ∧
      ((∀ p q : List TrapFeedback, seq = p ++ q →
          30 / 100 ≤ w0 + feedbackDrift p ∧ w0 + feedbackDrift p ≤ 99 / 100) →
        applyFeedback seq w0 = specClipWeight w0 (countCorrect seq) (countWrong seq)) := by
  intro seq w0
  refine ⟨fun h1 h2 => applyFeedback_bounds seq w0 h1 h2, fun h => ?_⟩
  have heq := applyFeedback_unclipped seq w0 h
  have hb := h seq [] (by simp)
  unfold specClipWeight
  have hX : w0 + (countCorrect seq : ℚ) * (1 / 100) - (countWrong seq : ℚ) * (2 / 100) =
      w0 + feedbackDrift seq := by
    unfold feedbackDrift; ring
  rw [heq, hX, min_eq_right hb.2, max_eq_right hb.1]

/-- C7 witness: one WRONG update from weight 0.50 stays in bounds and lands
on the clip-formula value 0.48. -/
theorem trap_weight_bounds_and_formula_witness :
    (30 / 100 ≤ applyFeedback [TrapFeedback.WRONG] (1 / 2) ∧
      applyFeedback [TrapFeedback.WRONG] (1 / 2) ≤ 99 / 100) ∧
    applyFeedback [TrapFeedback.WRONG] (1 / 2) =
      specClipWeight (1 / 2) (countCorrect [TrapFeedback.WRONG])
        (countWrong [TrapFeedback.WRONG]) := by
  have h := trap_weight_bounds_and_formula [TrapFeedback.WRONG] (1 / 2)
  refine ⟨h.1 (by norm_num) (by norm_num), h.2 ?_⟩
  intro p q hpq
  cases p with
  | nil =>
    have h0 : feedbackDrift ([] : List TrapFeedback) = 0 := by
      have hc : countCorrect [] = 0 := rfl
      have hw : countWrong [] = 0 := rfl
      unfold feedbackDrift
      rw [hc, hw]
      norm_num
    rw [h0]
    norm_num
  | cons a t =>
    rcases List.cons_eq_cons.mp hpq.symm with ⟨ha, htq⟩
    rcases List.append_eq_nil.mp htq with ⟨ht, hq⟩
    subst ht
    rw [ha, feedbackDrift_wrong]
    norm_num


/-- C6 counterexample: a position at +6 percent with the stage-1 partial not
yet taken receives the full take-profit sell, not the half partial sell: the
partial-sell condition carries the upper bound 5.5 in the source. -/
theorem partial_stage_skipped_above_window :
    judgeStock ⟨100000, 106000, 6, none, false⟩ = some ⟨SellReason.partialSell2, 1⟩ ∧
    (7 / 2 : ℚ) ≤ 6 ∧
    (⟨100000, 106000, 6, none, false⟩ : PortfolioItem).partialSold1 = false := by
  refine ⟨?_, by norm_num, rfl⟩
  unfold judgeStock maxProfitRateOf dropFromHighOf highestPriceOf takeProfitJudge
  norm_num

/-- C6 amended: exit conditions are evaluated in the source order, with the
full stop-loss first; the half stage-1 partial sell fires exactly when the
return is in the window [3.5, 5.5) with the stage-1 flag not set; a position
at 5.5 or above instead receives a later-priority full sell. -/
theorem judge_order_and_partial_window :
    ∀ item : PortfolioItem,
      (item.profitRate ≤ -3 → judgeStock item = some ⟨SellReason.stopLoss, 1⟩) ∧
      (judgeStock item = some ⟨SellReason.partialSell1, 1 / 2⟩ ↔
        7 / 2 ≤ item.profitRate ∧ item.profitRate < 11 / 2 ∧ item.partialSold1 = false) ∧
      (11 / 2 ≤ item.profitRate →
        ∃ d, judgeStock item = some d ∧ d.sellFraction = 1 ∧
          d.reasonType ≠ SellReason.partialSell1) := by
  intro item
  refine ⟨?_, ⟨?_, ?_⟩, ?_⟩
  · intro h
    unfold judgeStock
    rw [if_pos h]
  · intro h
    unfold judgeStock takeProfitJudge at h
    split_ifs at h <;> simp_all
  · rintro ⟨h1, h2, h3⟩
    unfold judgeStock
    rw [if_neg (by linarith), if_pos ⟨h1, h2, h3⟩]
  · intro h
    unfold judgeStock takeProfitJudge
    rw [if_neg (by linarith)]
    rw [if_neg (by rintro ⟨_, hlt, _⟩; linarith)]
    split_ifs <;> first
      | exact ⟨_, rfl, rfl, by decide⟩
      | simp_all

/-- C6 witness: a position at +4 percent with stage 1 untaken receives the
half partial sell. -/
theorem judge_order_and_partial_window_witness :
    judgeStock ⟨100000, 104000, 4, none, false⟩ = some ⟨SellReason.partialSell1, 1 / 2⟩ :=
  (judge_order_and_partial_window ⟨100000, 104000, 4, none, false⟩).2.1.mpr
    ⟨by norm_num, by norm_num, rfl⟩

theorem checkConsecutiveLosses_keeps_sc (s : TradingSystemState) :
    (checkConsecutiveLosses s).scBreakerActive = s.scBreakerActive := by
  unfold checkConsecutiveLosses
  dsimp only
  split_ifs <;> rfl

theorem applyTradingEvent_keeps_sc (e : TradingEvent) (s : TradingSystemState)
    (h : s.scBreakerActive = true) : (applyTradingEvent e s).scBreakerActive = true := by
  cases e with
  | engineExit r =>
    show (processTradeExit r s).scBreakerActive = true
    unfold processTradeExit
    rw [checkConsecutiveLosses_keeps_sc]
    exact h
  | commanderFeedback r =>
    show (scProcessFeedback s).scBreakerActive = true
    unfold scProcessFeedback
    split_ifs
    · rfl
    · exact h
  | settlementTick => exact h

/-- C5 counterexample: five failing exits (each echoed to the commander) arm
both breakers; the daily-settlement tick then runs and the breaker is still
active, with the commander still refusing every buy decision, refuting that
the settlement tick clears the breaker. -/
theorem breaker_survives_settlement :
    (applyTradingEvents
      (failingExitPair (-5) ++ failingExitPair (-5) ++ failingExitPair (-5) ++
        failingExitPair (-5) ++ failingExitPair (-5) ++ [TradingEvent.settlementTick])
      initialTradingState).scBreakerActive = true ∧
    (applyTradingEvents
      (failingExitPair (-5) ++ failingExitPair (-5) ++ failingExitPair (-5) ++
        failingExitPair (-5) ++ failingExitPair (-5) ++ [TradingEvent.settlementTick])
      initialTradingState).feBreakerActive = true ∧
    monitorAndDecide ["BUY 005930"]
      (applyTradingEvents
        (failingExitPair (-5) ++ failingExitPair (-5) ++ failingExitPair (-5) ++
          failingExitPair (-5) ++ failingExitPair (-5) ++ [TradingEvent.settlementTick])
        initialTradingState) = [] := by
  refine ⟨?_, ?_, ?_⟩ <;> decide

/-- C5 amended: once the commander breaker flag is set, every later event
sequence leaves it set and monitor_and_decide keeps refusing all decisions;
the flag is set as soon as the commander reads a leading-failure streak of
five; nothing, the daily-settlement stub included, ever clears it. -/
theorem breaker_latch_is_permanent :
    ∀ (s : TradingSystemState) (events : List TradingEvent) (llm : List String),
      (s.scBreakerActive = true →
        (applyTradingEvents events s).scBreakerActive = true ∧
        monitorAndDecide llm (applyTradingEvents events s) = []) ∧
      (5 ≤ leadingFailures s.feedbackRows →
        (scProcessFeedback s).scBreakerActive = true) := by
  intro s events llm
  constructor
  · intro h
    have hpersist : (applyTradingEvents events s).scBreakerActive = true := by
      induction events generalizing s with
      | nil => exact h
      | cons e rest ih =>
        have h1 := applyTradingEvent_keeps_sc e s h
        simpa [applyTradingEvents] using ih (applyTradingEvent e s) h1
    exact ⟨hpersist, by simp [monitorAndDecide, hpersist]⟩
  · intro h
    unfold scProcessFeedback
    rw [if_pos h]

/-- C5 witness: with the breaker latched and five recent failures, a
settlement tick leaves the breaker latched and the commander refusing. -/
theorem breaker_latch_is_permanent_witness :
    (applyTradingEvents [TradingEvent.settlementTick]
      { feedbackRows := [ResultCategory.FAILURE, ResultCategory.FAILURE,
          ResultCategory.FAILURE, ResultCategory.FAILURE, ResultCategory.FAILURE]
        currentMinScore := 79, feBreakerActive := true,
        scBreakerActive := true }).scBreakerActive = true ∧
    monitorAndDecide ["BUY"]
      (applyTradingEvents [TradingEvent.settlementTick]
        { feedbackRows := [ResultCategory.FAILURE, ResultCategory.FAILURE,
            ResultCategory.FAILURE, ResultCategory.FAILURE, ResultCategory.FAILURE]
          currentMinScore := 79, feBreakerActive := true,
          scBreakerActive := true }) = [] ∧
    (scProcessFeedback
      { feedbackRows := [ResultCategory.FAILURE, ResultCategory.FAILURE,
          ResultCategory.FAILURE, ResultCategory.FAILURE, ResultCategory.FAILURE]
        currentMinScore := 79, feBreakerActive := true,
        scBreakerActive := true }).scBreakerActive = true := by
  have h := breaker_latch_is_permanent
    { feedbackRows := [ResultCategory.FAILURE, ResultCategory.FAILURE,
        ResultCategory.FAILURE, ResultCategory.FAILURE, ResultCategory.FAILURE]
      currentMinScore := 79, feBreakerActive := true, scBreakerActive := true }
    [TradingEvent.settlementTick] ["BUY"]
  exact ⟨(h.1 rfl).1, (h.1 rfl).2, h.2 (by decide)⟩


theorem hasCode_true_of_mem {s : WebSocketSlot} {slots : List WebSocketSlot}
    (h : s ∈ slots) : hasCode s.stockCode slots = true := by
  unfold hasCode
  rw [List.any_eq_true]
  exact ⟨s, h, by simp⟩

theorem oldestFrom_mem (b : WebSocketSlot) (l : List WebSocketSlot) :
    oldestFrom b l = b ∨ oldestFrom b l ∈ l := by
  induction l generalizing b with
  | nil => exact Or.inl rfl
  | cons s rest ih =>
    rcases ih (if s.subscribedAt < b.subscribedAt then s else b) with h | h
    · rw [oldestFrom, h]
      split_ifs with hc
      · exact Or.inr (List.mem_cons_self _ _)
      · exact Or.inl rfl
    · exact Or.inr (List.mem_cons_of_mem _ (by rw [oldestFrom]; exact h))

theorem oldestFrom_le_best (b : WebSocketSlot) (l : List WebSocketSlot) :
    (oldestFrom b l).subscribedAt ≤ b.subscribedAt := by
  induction l generalizing b with
  | nil => exact le_refl _
  | cons s rest ih =>
    rw [oldestFrom]
    refine le_trans (ih _) ?_
    split_ifs with hc
    · exact le_of_lt hc
    · exact le_refl _

theorem oldestFrom_le_mem (b : WebSocketSlot) (l : List WebSocketSlot) :
    ∀ t ∈ l, (oldestFrom b l).subscribedAt ≤ t.subscribedAt := by
  induction l generalizing b with
  | nil => intro t ht; cases ht
  | cons s rest ih =>
    intro t ht
    rcases List.mem_cons.mp ht with rfl | ht'
    · rw [oldestFrom]
      refine le_trans (oldestFrom_le_best _ _) ?_
      split_ifs with hc
      · exact le_refl _
      · exact le_of_not_lt hc
    · rw [oldestFrom]
      exact ih _ t ht'

theorem oldestSlot_spec {l : List WebSocketSlot} {s : WebSocketSlot}
    (h : oldestSlot l = some s) :
    s ∈ l ∧ ∀ t ∈ l, s.subscribedAt ≤ t.subscribedAt := by
  cases l with
  | nil => cases h
  | cons a rest =>
    have hs : s = oldestFrom a rest := by
      rw [oldestSlot] at h
      exact (Option.some_inj.mp h).symm
    subst hs
    constructor
    · rcases oldestFrom_mem a rest with h1 | h1
      · rw [h1]; exact List.mem_cons_self _ _
      · exact List.mem_cons_of_mem _ h1
    · intro t ht
      rcases List.mem_cons.mp ht with rfl | ht'
      · exact oldestFrom_le_best _ _
      · exact oldestFrom_le_mem _ _ t ht'

theorem oldestSlot_of_ne_nil {l : List WebSocketSlot} (h : l ≠ []) :
    ∃ s, oldestSlot l = some s := by
  cases l with
  | nil => exact absurd rfl h
  | cons a rest => exact ⟨oldestFrom a rest, rfl⟩

/-- C4 amended: with the table full and the symbol absent, subscribe evicts
the oldest priority-3 slot whenever one exists, for every requested priority
including 3; with no priority-3 slot it evicts the oldest priority-2 slot
when the requested priority is at most 2 and one exists; otherwise it returns
failure with the table unchanged. -/
theorem subscribe_eviction_behavior :
    ∀ (slots : List WebSocketSlot) (code nm trId : String) (now p : Nat),
      hasCode code slots = false →
      MAX_SLOTS ≤ slots.length →
      ((∃ s ∈ slots, s.priority = 3) →
        ∃ victim ∈ slots, victim.priority = 3 ∧
          (∀ t ∈ slots, t.priority = 3 → victim.subscribedAt ≤ t.subscribedAt) ∧
          subscribeOp ⟨true, true⟩ code nm p trId now slots =
            (true, removeSlot victim.stockCode slots ++ [⟨code, nm, trId, p, now⟩])) ∧
      ((∀ s ∈ slots, s.priority ≠ 3) → p ≤ 2 → (∃ s ∈ slots, s.priority = 2) →
        ∃ victim ∈ slots, victim.priority = 2 ∧
          (∀ t ∈ slots, t.priority = 2 → victim.subscribedAt ≤ t.subscribedAt) ∧
          subscribeOp ⟨true, true⟩ code nm p trId now slots =
            (true, removeSlot victim.stockCode slots ++ [⟨code, nm, trId, p, now⟩])) ∧
      ((∀ s ∈ slots, s.priority ≠ 3) → (2 < p ∨ (∀ s ∈ slots, s.priority ≠ 2)) →
        subscribeOp ⟨true, true⟩ code nm p trId now slots = (false, slots)) := by
  intro slots code nm trId now p hfree hlen
  refine ⟨?_, ?_, ?_⟩
  · rintro ⟨s0, hs0, hs0p⟩
    have hmem3 : s0 ∈ slots.filter (fun s => s.priority = 3) :=
      List.mem_filter.mpr ⟨hs0, by simp [hs0p]⟩
    obtain ⟨victim, hv⟩ := oldestSlot_of_ne_nil (List.ne_nil_of_mem hmem3)
    have hspec := oldestSlot_spec hv
    have hvmem : victim ∈ slots := (List.mem_filter.mp hspec.1).1
    have hvp : victim.priority = 3 := by
      have := (List.mem_filter.mp hspec.1).2
      simpa using this
    refine ⟨victim, hvmem, hvp, ?_, ?_⟩
    · intro t htmem htp
      exact hspec.2 t (List.mem_filter.mpr ⟨htmem, by simp [htp]⟩)
    · unfold subscribeOp evictLowestPriority unsubscribeOp
      rw [hfree]
      simp only [Bool.false_eq_true, if_false, if_pos hlen, hv,
        hasCode_true_of_mem hvmem]
      simp
  · intro hno3 hp ⟨s0, hs0, hs0p⟩
    have hnil3 : slots.filter (fun s => s.priority = 3) = [] := by
      rw [List.filter_eq_nil_iff]
      intro a ha
      simp [hno3 a ha]
    have hmem2 : s0 ∈ slots.filter (fun s => s.priority = 2) :=
      List.mem_filter.mpr ⟨hs0, by simp [hs0p]⟩
    obtain ⟨victim, hv⟩ := oldestSlot_of_ne_nil (List.ne_nil_of_mem hmem2)
    have hspec := oldestSlot_spec hv
    have hvmem : victim ∈ slots := (List.mem_filter.mp hspec.1).1
    have hvp : victim.priority = 2 := by
      have := (List.mem_filter.mp hspec.1).2
      simpa using this
    refine ⟨victim, hvmem, hvp, ?_, ?_⟩
    · intro t htmem htp
      exact hspec.2 t (List.mem_filter.mpr ⟨htmem, by simp [htp]⟩)
    · unfold subscribeOp evictLowestPriority unsubscribeOp
      rw [hfree, hnil3, hv]
      simp only [Bool.false_eq_true, if_false, if_pos hlen, oldestSlot,
        if_pos hp, hasCode_true_of_mem hvmem]
      simp
  · intro hno3 hrest
    have hnil3 : slots.filter (fun s => s.priority = 3) = [] := by
      rw [List.filter_eq_nil_iff]
      intro a ha
      simp [hno3 a ha]
    unfold subscribeOp evictLowestPriority
    rw [hfree]
    rcases hrest with hgt | hno2
    · simp only [Bool.false_eq_true, if_false, if_pos hlen, hnil3, oldestSlot,
        if_neg (by omega : ¬ p ≤ 2)]
      simp
    · have hnil2 : slots.filter (fun s => s.priority = 2) = [] := by
        rw [List.filter_eq_nil_iff]
        intro a ha
        simp [hno2 a ha]
      simp only [Bool.false_eq_true, if_false, if_pos hlen, hnil3, hnil2, oldestSlot]
      split_ifs <;> simp_all


set_option maxRecDepth 10000 in
/-- C4 counterexample: a full table of forty priority-3 slots and a new
priority-3 subscription; the claim calls for failure with the table
unchanged (equal-priority eviction is only allowed for p at most 2), but the
source evicts the oldest priority-3 slot and subscribes successfully. -/
theorem equal_priority_eviction_at_p3 :
    (subscribeOp ⟨true, true⟩ "NEW" "NewStock" 3 "H0STCNT0" 100 fullP3Table).1 = true ∧
    hasCode "NEW" (subscribeOp ⟨true, true⟩ "NEW" "NewStock" 3 "H0STCNT0" 100 fullP3Table).2 = true ∧
    hasCode "P3-0" (subscribeOp ⟨true, true⟩ "NEW" "NewStock" 3 "H0STCNT0" 100 fullP3Table).2 = false ∧
    fullP3Table.length = 40 ∧ (∀ s ∈ fullP3Table, s.priority = 3) := by
  refine ⟨?_, ?_, ?_, ?_, ?_⟩ <;> decide

set_option maxRecDepth 10000 in
/-- C4 witness: the amended statement on the concrete full priority-3 table
with a new priority-1 subscription. -/
theorem subscribe_eviction_behavior_witness :
    ∃ victim ∈ fullP3Table, victim.priority = 3 ∧
      (∀ t ∈ fullP3Table, t.priority = 3 → victim.subscribedAt ≤ t.subscribedAt) ∧
      subscribeOp ⟨true, true⟩ "NEW" "NewStock" 1 "H0STCNT0" 100 fullP3Table =
        (true, removeSlot victim.stockCode fullP3Table ++
          [⟨"NEW", "NewStock", "H0STCNT0", 1, 100⟩]) :=
  (subscribe_eviction_behavior fullP3Table "NEW" "NewStock" "H0STCNT0" 100 1
    (by decide) (by decide)).1 (by decide)

set_option maxRecDepth 10000 in
/-- C8 failing input: with the table at the 40-slot cap, an eviction whose
unsubscribe frame send fails leaves the victim in the table while
evict_lowest_priority still reports success, and a subsequent successful
subscribe frame grows the table to 41 slots. -/
theorem slot_cap_overflow_on_failed_evict_send :
    fullP3Table.length = 40 ∧
    (subscribeOp ⟨false, true⟩ "NEW" "NewStock" 2 "H0STCNT0" 100 fullP3Table).2.length = 41 := by
  refine ⟨?_, ?_⟩ <;> decide

theorem removeSlot_length_lt {victim : WebSocketSlot} {slots : List WebSocketSlot}
    (h : victim ∈ slots) :
    (removeSlot victim.stockCode slots).length < slots.length := by
  unfold removeSlot
  refine lt_of_le_of_ne (List.length_filter_le _ _) (fun heq => ?_)
  have hall := List.filter_length_eq_length.mp heq victim h
  simp at hall

theorem unsubscribeOp_length_le (sendOk : Bool) (code : String)
    (slots : List WebSocketSlot) :
    (unsubscribeOp sendOk code slots).2.length ≤ slots.length := by
  unfold unsubscribeOp removeSlot
  split_ifs <;> simp [List.length_filter_le]

theorem evictLowestPriority_shrinks (p : Nat) (slots : List WebSocketSlot) :
    ((evictLowestPriority true p slots).1 = true →
      (evictLowestPriority true p slots).2.length < slots.length) ∧
    ((evictLowestPriority true p slots).1 = false →
      (evictLowestPriority true p slots).2 = slots) := by
  unfold evictLowestPriority
  rcases hv3 : oldestSlot (slots.filter (fun s => s.priority = 3)) with _ | v3
  · by_cases hp' : p ≤ 2
    · rw [if_pos hp']
      rcases hv2 : oldestSlot (slots.filter (fun s => s.priority = 2)) with _ | v2
      · exact ⟨fun h => Bool.noConfusion h, fun _ => rfl⟩
      · have hvmem : v2 ∈ slots := (List.mem_filter.mp (oldestSlot_spec hv2).1).1
        refine ⟨fun _ => ?_, fun h => Bool.noConfusion h⟩
        show ((unsubscribeOp true v2.stockCode slots).2).length < slots.length
        unfold unsubscribeOp
        rw [hasCode_true_of_mem hvmem]
        simp [removeSlot_length_lt hvmem]
    · rw [if_neg hp']
      exact ⟨fun h => Bool.noConfusion h, fun _ => rfl⟩
  · have hvmem : v3 ∈ slots := (List.mem_filter.mp (oldestSlot_spec hv3).1).1
    refine ⟨fun _ => ?_, fun h => Bool.noConfusion h⟩
    show ((unsubscribeOp true v3.stockCode slots).2).length < slots.length
    unfold unsubscribeOp
    rw [hasCode_true_of_mem hvmem]
    simp [removeSlot_length_lt hvmem]

theorem subscribeOp_preserves_cap (sends : SendOutcomes)
    (hsend : sends.evictSendOk = true) (code nm : String) (p : Nat) (trId : String)
    (now : Nat) (slots : List WebSocketSlot) (hcap : slots.length ≤ MAX_SLOTS) :
    (subscribeOp sends code nm p trId now slots).2.length ≤ MAX_SLOTS := by
  unfold subscribeOp
  dsimp only
  rcases h1 : hasCode code slots with _ | _
  · rw [hsend]
    simp only [Bool.false_eq_true, if_false]
    by_cases h2 : MAX_SLOTS ≤ slots.length
    · rw [if_pos h2]
      have hsh := evictLowestPriority_shrinks p slots
      rcases h3 : (evictLowestPriority true p slots).1 with _ | _
      · simp [h3, hcap]
      · have hlt := hsh.1 h3
        simp only [h3, Bool.true_eq_false, if_false]
        split_ifs <;> simp [List.length_append] <;> omega
    · rw [if_neg h2]
      have hlt : slots.length < MAX_SLOTS := lt_of_not_le h2
      split_ifs <;> simp [List.length_append] <;> omega
  · simp [hcap]

theorem foldl_unsubscribe_length_le (ok : String → Bool) (codes : List String)
    (slots : List WebSocketSlot) :
    (codes.foldl (fun acc c => (unsubscribeOp (ok c) c acc).2) slots).length ≤
      slots.length := by
  induction codes generalizing slots with
  | nil => exact le_refl _
  | cons c rest ih =>
    simpa [List.foldl_cons] using
      le_trans (ih (unsubscribeOp (ok c) c slots).2) (unsubscribeOp_length_le _ _ _)

theorem foldl_subscribe_preserves_cap {A : Type} (f : A → SendOutcomes)
    (hf : ∀ a, (f a).evictSendOk = true) (gcode gname gtr : A → String)
    (gprio gnow : A → Nat) (items : List A) (slots : List WebSocketSlot)
    (hcap : slots.length ≤ MAX_SLOTS) :
    (items.foldl
      (fun acc a => (subscribeOp (f a) (gcode a) (gname a) (gprio a) (gtr a) (gnow a) acc).2)
      slots).length ≤ MAX_SLOTS := by
  induction items generalizing slots with
  | nil => exact hcap
  | cons a rest ih =>
    simpa [List.foldl_cons] using
      ih _ (subscribeOp_preserves_cap (f a) (hf a) _ _ _ _ _ _ hcap)

theorem updateDailyPicksOp_preserves_cap (unsubOk : String → Bool)
    (subSends : String → SendOutcomes) (hsends : ∀ c, (subSends c).evictSendOk = true)
    (picks : List (String × String)) (now : Nat) (slots : List WebSocketSlot)
    (hcap : slots.length ≤ MAX_SLOTS) :
    (updateDailyPicksOp unsubOk subSends picks now slots).length ≤ MAX_SLOTS := by
  unfold updateDailyPicksOp
  dsimp only
  refine foldl_subscribe_preserves_cap (fun pk : String × String => subSends pk.1)
    (fun pk => hsends pk.1) (fun pk : String × String => pk.1)
    (fun pk : String × String => pk.2) (fun _ => "H0STCNT0") (fun _ => 2) (fun _ => now)
    (picks.take 20) _ ?_
  exact le_trans (foldl_unsubscribe_length_le _ _ _) hcap

theorem syncWithPortfolioOp_preserves_cap (unsubOk : String → Bool)
    (subSends : String → SendOutcomes) (hsends : ∀ c, (subSends c).evictSendOk = true)
    (portfolio : List (String × String)) (now : Nat) (slots : List WebSocketSlot)
    (hcap : slots.length ≤ MAX_SLOTS) :
    (syncWithPortfolioOp unsubOk subSends portfolio now slots).length ≤ MAX_SLOTS := by
  unfold syncWithPortfolioOp
  dsimp only
  refine le_trans (foldl_unsubscribe_length_le _ _ _) ?_
  exact foldl_subscribe_preserves_cap (fun p : String × String => subSends p.1)
    (fun p => hsends p.1) (fun p : String × String => p.1)
    (fun p : String × String => p.2) (fun _ => "H0STCNT0") (fun _ => 1) (fun _ => now)
    _ _ hcap

theorem resubscribeAllOp_preserves_cap (subSends : String → SendOutcomes)
    (hsends : ∀ c, (subSends c).evictSendOk = true) (now : Nat)
    (slots : List WebSocketSlot) :
    (resubscribeAllOp subSends now slots).length ≤ MAX_SLOTS := by
  unfold resubscribeAllOp
  exact foldl_subscribe_preserves_cap (fun s => subSends s.stockCode)
    (fun s => hsends s.stockCode) (fun s => s.stockCode) (fun s => s.stockName)
    (fun s => s.trId) (fun s => s.priority) (fun _ => now) slots []
    (by simp [MAX_SLOTS])

end Aegis
